import Mathlib

/-!
Verification development for the FoodFast backend's real-time event-delivery
subsystem.  The definitions below are shallow embeddings of the JavaScript
request/socket handlers in `src/routes` and `src/sockets`:

* order status updates (`src/routes/orders.js`, `src/sockets/restaurantHandler.js`),
* the announcement pub/sub fan-out (`src/routes/announcements.js`,
  `src/sockets/announcementHandler.js`),
* the support-chat `send-message` handler (`src/sockets/chatHandler.js`),
* the image-upload long-polling loop (`src/routes/images.js`),
* the SSE streaming registry for driver locations (`src/routes/driver.js`).

Machine state (database row, Redis cache entry, socket rooms, connection
registry) is passed explicitly; JS `Map`/`Set` structures become association
lists / duplicate-free lists.
-/

namespace FoodFast

/-! ## Order lifecycle (orders.js, restaurantHandler.js) -/

/-- The six members of `validStatuses` in `PUT /api/orders/:orderId/status`. -/
inductive OrderStatus
  | confirmed
  | preparing
  | ready
  | picked_up
  | delivered
  | cancelled
deriving DecidableEq, Repr

/-- The four `user_type` values of the `users` table. -/
inductive UserType
  | customer
  | restaurant
  | driver
  | support
deriving DecidableEq, Repr

/-- The columns of the `orders` row that the status-update handlers read or
write: current status, the `user_id` of the owning restaurant (the join
`orders.restaurant_id = r.id AND r.user_id = $3`), and the assigned driver. -/
structure OrderRow where
  status : OrderStatus
  restaurantUserId : Nat
  driverId : Option Nat
deriving DecidableEq, Repr

/-- Outcome of `PUT /api/orders/:orderId/status`. -/
inductive UpdateOutcome
  | updated (newStatus : OrderStatus)
  | roleTargetRejected
  | forbidden
  | notFound
deriving DecidableEq, Repr

/-- Embeds `['preparing', 'ready'].includes(status)` — the restaurant branch. -/
def restaurantAllowed (s : OrderStatus) : Bool :=
  s = .preparing || s = .ready

/-- Embeds `['picked_up', 'delivered'].includes(status)` — the driver branch. -/
def driverAllowed (s : OrderStatus) : Bool :=
  s = .picked_up || s = .delivered

/-- Shallow embedding of the `PUT /api/orders/:orderId/status` handler
(`src/routes/orders.js` lines 253-342).  Arguments: the caller's type and id,
the order row the UPDATE statements would match against, the Redis
`order_status:{orderId}` cache entry (only its `status` field matters here),
and the requested status (already a member of `validStatuses`).  Returns the
HTTP outcome together with the resulting order row and cache entry.  Note the
UPDATE statements constrain only ownership/assignment, never the current
`orders.status`. -/
def putOrderStatus (userType : UserType) (userId : Nat) (order : OrderRow)
    (cache : Option OrderStatus) (requested : OrderStatus) :
    UpdateOutcome × OrderRow × Option OrderStatus :=
  match userType with
  | .restaurant =>
    if restaurantAllowed requested then
      if order.restaurantUserId = userId then
        (.updated requested, { order with status := requested },
          cache.map fun _ => requested)
      else (.notFound, order, cache)
    else (.roleTargetRejected, order, cache)
  | .driver =>
    if driverAllowed requested then
      if order.driverId = none ∨ order.driverId = some userId then
        (.updated requested,
          { order with status := requested, driverId := some userId },
          cache.map fun _ => requested)
      else (.notFound, order, cache)
    else (.roleTargetRejected, order, cache)
  | _ => (.forbidden, order, cache)

/-- Embeds `['preparing', 'ready', 'cancelled']` — `validStatuses` of the socket
`update-order-status` handler. -/
def socketAllowed (s : OrderStatus) : Bool :=
  s = .preparing || s = .ready || s = .cancelled

/-- Outcome of the socket `update-order-status` handler. -/
inductive SocketUpdateOutcome
  | confirmedUpdate (newStatus : OrderStatus)
  | notAuthenticated
  | invalidStatus
  | notFoundOrDenied
deriving DecidableEq, Repr

/-- Shallow embedding of the `update-order-status` socket event handler
(`src/sockets/restaurantHandler.js` lines 73-139).  `authed` models
`socket.restaurantId && socket.userId` being set.  As in the HTTP handler the
UPDATE constrains only restaurant ownership, never the current status. -/
def socketUpdateOrderStatus (authed : Bool) (userId : Nat) (order : OrderRow)
    (requested : OrderStatus) : SocketUpdateOutcome × OrderRow :=
  if !authed then (.notAuthenticated, order)
  else if !socketAllowed requested then (.invalidStatus, order)
  else if order.restaurantUserId = userId then
    (.confirmedUpdate requested, { order with status := requested })
  else (.notFoundOrDenied, order)

/-- Modelled from the spec (§4.1): the order state machine the specification
says is enforced — `confirmed → preparing → ready → picked_up → delivered`,
`preparing`/`ready` only by the restaurant, `picked_up`/`delivered` only by
the driver, and `cancelled` only by the restaurant from a non-terminal,
non-picked-up state.  This definition follows the spec's words so that it can
be compared against the behaviour of `putOrderStatus`. -/
def specValidTransition (role : UserType) (current target : OrderStatus) : Bool :=
  match current, target with
  | .confirmed, .preparing => role = .restaurant
  | .preparing, .ready => role = .restaurant
  | .ready, .picked_up => role = .driver
  | .picked_up, .delivered => role = .driver
  | c, .cancelled =>
    role = .restaurant && (c = .confirmed || c = .preparing || c = .ready)
  | _, _ => false

/-! ## Announcement pub/sub fan-out (announcements.js, announcementHandler.js)

The Redis bridge (`src/config/redis.js`, not part of the delivery core shown
here) delivers each `publish(channel, data)` once to every callback registered
with `subscribe(channel, cb)` on every process; what matters for delivery
counts is which channels `broadcastAnnouncement` publishes on, which rooms the
per-channel callbacks dispatch into, and which rooms a subscriber's socket has
joined. -/

/-- Embeds `validAudiences = ['all', 'customers', 'restaurants', 'drivers']` in
`POST /api/announcements`. -/
inductive Audience
  | all
  | customers
  | restaurants
  | drivers
deriving DecidableEq, Repr

/-- The Redis channel name for an audience tier: `announcements-${audience}`
(as in `broadcastAnnouncement`, with the plural tier names). -/
def audienceChannel : Audience → String
  | .all => "announcements-all"
  | .customers => "announcements-customers"
  | .restaurants => "announcements-restaurants"
  | .drivers => "announcements-drivers"

/-- The channels `broadcastAnnouncement` publishes one announcement on
(`src/routes/announcements.js` lines 287-320): all four channels when
`target_audience === 'all'`, otherwise the single tier channel. -/
def publishChannels : Audience → List String
  | .all => [audienceChannel .all, audienceChannel .customers,
             audienceChannel .restaurants, audienceChannel .drivers]
  | a => [audienceChannel a]

/-- Per `initializeAnnouncementSubscribers` (`src/sockets/announcementHandler.js`
lines 82-118) registers, for each of the four channel tiers, a callback on
channel `announcements-${userType}` that emits into the socket room with the
same name: the dispatch room of a channel is the channel name itself. -/
def dispatchRoom (channel : String) : String := channel

/-- The `user_type` string stored in the `users` table and interpolated into
room names by the socket handlers. -/
def userTypeName : UserType → String
  | .customer => "customer"
  | .restaurant => "restaurant"
  | .driver => "driver"
  | .support => "support"

/-- The rooms a socket joins in `subscribe-announcements`
(`src/sockets/announcementHandler.js` lines 36-48): its singular
`announcements-${userType}` tier room plus `announcements-all`. -/
def subscriberRooms (t : UserType) : List String :=
  ["announcements-" ++ userTypeName t, "announcements-all"]

/-- How many copies of a single announcement with audience `a` a connected
subscriber of type `t` receives on its process: one per published channel
whose dispatch room the subscriber's socket has joined. -/
def deliveryCount (t : UserType) (a : Audience) : Nat :=
  ((publishChannels a).filter
    (fun c => (subscriberRooms t).contains (dispatchRoom c))).length

/-- Does an announcement with audience `a` target subscribers of type `t`?
(`all` targets everyone; a tier targets its own user type.) -/
def targets (a : Audience) (t : UserType) : Bool :=
  match a, t with
  | .all, _ => true
  | .customers, .customer => true
  | .restaurants, .restaurant => true
  | .drivers, .driver => true
  | _, _ => false

/-! ## Support chat send-message (chatHandler.js) -/

/-- Whitespace for trimming. -/
def isWs (c : Char) : Bool := c.isWhitespace

/-- Embeds `message.trim()`: strip whitespace from both ends. -/
def chatTrim (s : List Char) : List Char :=
  ((s.dropWhile isWs).reverse.dropWhile isWs).reverse

/-- An event emitted to one socket by the `send-message` handler. -/
inductive ChatEvent
  | newMessage (msg : List Char)
  | messageSent
  | errorReply
deriving DecidableEq, Repr

/-- Result of the `send-message` handler together with the events it emits,
as (handle, event) pairs in emission order. -/
inductive SendOutcome
  | stored (msg : List Char)
  | notConnected
  | emptyMessage
  | tooLong
deriving DecidableEq, Repr

/-- Shallow embedding of the `send-message` socket event handler
(`src/sockets/chatHandler.js` lines 373-436).  `connected` models
`socket.chatId && socket.userId`; `sender` is the sender's socket handle;
`roomMembers` is the membership of the `chat-${chatId}` room (the sender
joined it in `join-support-chat`); `message` is the `message` field of the
event payload (`none` = absent/undefined, and the empty string is falsy like
an absent field).  Returns the outcome (what, if anything, is stored in
`chat_messages`) and the emitted events: `io.to(room).emit('new-message', …)`
reaches every room member, then `socket.emit('message-sent', …)` goes to the
sender alone; on a validation failure only an error event goes to the
sender. -/
def sendMessage (connected : Bool) (sender : Nat) (roomMembers : List Nat)
    (message : Option (List Char)) : SendOutcome × List (Nat × ChatEvent) :=
  if !connected then (.notConnected, [(sender, .errorReply)])
  else
    match message with
    | none => (.emptyMessage, [(sender, .errorReply)])
    | some m =>
      if m.isEmpty || (chatTrim m).isEmpty then
        (.emptyMessage, [(sender, .errorReply)])
      else if m.length > 1000 then
        (.tooLong, [(sender, .errorReply)])
      else
        (.stored (chatTrim m),
          roomMembers.map (fun h => (h, .newMessage (chatTrim m)))
            ++ [(sender, .messageSent)])

/-! ## Image-upload long polling (images.js) -/

/-- The `image_uploads.status` column values. -/
inductive UploadStatus
  | uploading
  | processing
  | completed
  | failed
deriving DecidableEq, Repr

/-- Embeds `['completed', 'failed'].includes(status)`. -/
def isTerminalUpload (s : UploadStatus) : Bool :=
  s = .completed || s = .failed

/-- The part of an `image_uploads` row the poll loop reads. -/
structure UploadSnap where
  status : UploadStatus
  progress : Int
deriving DecidableEq, Repr

/-- What one iteration of `pollForChanges` decides
(`src/routes/images.js` lines 184-227). -/
inductive PollDecision
  | respond (completed : Bool) (progress : Int)
  | keepWaiting
deriving DecidableEq, Repr

/-- One check of the `pollForChanges` loop body against the freshly queried
row `current`, with `initial` the snapshot read before the loop started
(`upload` in the source): respond `completed=true` on a terminal status,
respond `completed=false` when `Math.abs(current.progress - upload.progress)
>= 5`, otherwise sleep and re-check. -/
def pollCheck (initial current : UploadSnap) : PollDecision :=
  if isTerminalUpload current.status then .respond true current.progress
  else if (current.progress - initial.progress).natAbs ≥ 5 then
    .respond false current.progress
  else .keepWaiting

/-- Embeds `const maxTimeout = 60000` in `GET /api/images/status/:uploadId`. -/
def maxTimeout : Nat := 60000

/-- Embeds `const pollInterval = 1000`. -/
def pollInterval : Nat := 1000

/-- Embeds `Math.min(timeout, maxTimeout)` applied to the caller's
`?timeout=` value. -/
def effectiveTimeout (requested : Nat) : Nat := min requested maxTimeout

/-- Elapsed time (ms) at which the `while (Date.now() - startTime <
pollTimeout)` loop responds when no material change ever occurs and checks
and writes take no time: each iteration performs a check at elapsed time `t`
and sleeps `pollInterval`; the loop exits and responds at the first tick not
below `pollTimeout`. -/
def pollLoopEnd (pollTimeout t : Nat) : Nat :=
  if t < pollTimeout then pollLoopEnd pollTimeout (t + pollInterval) else t
termination_by pollTimeout - t
decreasing_by simp [pollInterval]; omega

/-- Response time of the long-poll endpoint for a request with
`?timeout=requested` on an upload that never changes. -/
def noChangeReturnTime (requested : Nat) : Nat :=
  pollLoopEnd (effectiveTimeout requested) 0

/-! ## SSE streaming registry for driver locations (driver.js) -/

/-- The `sseConnections` map (`orderId -> Set of response objects`), as an
association list from order ids to the list of open handles. -/
abbrev Registry := List (Nat × List Nat)

/-- Embeds `sseConnections.get(orderId)`. -/
def regLookup (reg : Registry) (o : Nat) : Option (List Nat) :=
  match reg with
  | [] => none
  | (k, hs) :: rest => if k = o then some hs else regLookup rest o

/-- Replace the handle set of `o` (insert if absent). -/
def regSet (reg : Registry) (o : Nat) (hs : List Nat) : Registry :=
  match reg with
  | [] => [(o, hs)]
  | (k, w) :: rest =>
    if k = o then (k, hs) :: rest else (k, w) :: regSet rest o hs

/-- Embeds `sseConnections.delete(orderId)`. -/
def regRemove (reg : Registry) (o : Nat) : Registry :=
  reg.filter (fun p => p.1 ≠ o)

/-- The `connections.forEach` push loop of `PUT /api/driver/location`
(`src/routes/driver.js` lines 98-106): each `res.write` is attempted inside
its own `try`; a handle whose write throws is deleted from the set, the
others still receive the frame.  Returns (handles written to, handles
remaining in the set). -/
def pushHandles (handles : List Nat) (failing : Nat → Bool) :
    List Nat × List Nat :=
  match handles with
  | [] => ([], [])
  | h :: rest =>
    let (d, r) := pushHandles rest failing
    if failing h then (d, r) else (h :: d, h :: r)

/-- The full SSE push step of `PUT /api/driver/location` (lines 86-107):
look up the connection set for the order; if present and non-empty, write the
frame to every handle, dropping failed ones from the set — the (possibly now
empty) map entry itself is left in place. -/
def pushLocation (reg : Registry) (o : Nat) (failing : Nat → Bool) :
    List Nat × Registry :=
  match regLookup reg o with
  | none => ([], reg)
  | some hs =>
    if hs.isEmpty then ([], reg)
    else
      let (delivered, remaining) := pushHandles hs failing
      (delivered, regSet reg o remaining)

/-- The `req.on('close', …)` cleanup of the SSE stream endpoint
(`src/routes/driver.js` lines 188-197): remove the handle, and delete the
whole `orderId` entry when the set becomes empty. -/
def closeConnection (reg : Registry) (o : Nat) (h : Nat) : Registry :=
  match regLookup reg o with
  | none => reg
  | some hs =>
    let hs' := hs.filter (fun x => x ≠ h)
    if hs'.isEmpty then regRemove reg o else regSet reg o hs'

/-- The failure branch of the 30-second `heartbeatInterval` callback
(`src/routes/driver.js` lines 199-215): on a write error the handle is
deleted from the set — with no empty-entry cleanup. -/
def heartbeatFailureCleanup (reg : Registry) (o : Nat) (h : Nat) : Registry :=
  match regLookup reg o with
  | none => reg
  | some hs => regSet reg o (hs.filter (fun x => x ≠ h))

/-! ## SSE wire frames (driver.js) -/

/-- A fragment of JSON large enough to express the frames `driver.js`
serializes with `JSON.stringify`. -/
inductive Json
  | str (s : String)
  | num (n : Int)
  | obj (fields : List (String × Json))

/-- Top-level field names of a JSON object. -/
def Json.topFields : Json → List String
  | .obj fs => fs.map Prod.fst
  | _ => []

/-- Field access on a JSON object (`none` when the field is absent). -/
def Json.field : Json → String → Option Json
  | .obj fs, k => (fs.find? (fun p => p.1 = k)).map Prod.snd
  | _, _ => none

/-- The `location_update` frame pushed on a driver location update
(`src/routes/driver.js` lines 88-96): `{ type, data: { latitude, longitude,
timestamp, orderId } }`. -/
def locationUpdateFrame (lat lng : Int) (ts orderId : String) : Json :=
  .obj [("type", .str ("location_update")),
        ("data", .obj [("latitude", .num lat), ("longitude", .num lng),
                       ("timestamp", .str ts), ("orderId", .str orderId)])]

/-- The heartbeat frame (`src/routes/driver.js` lines 202-207):
`{ type: 'heartbeat', data: { timestamp } }`. -/
def heartbeatFrame (ts : String) : Json :=
  .obj [("type", .str ("heartbeat")),
        ("data", .obj [("timestamp", .str ts)])]

/-- The initial `connection_established` frame (lines 158-163). -/
def connectionEstablishedFrame (orderId msg : String) : Json :=
  .obj [("type", .str ("connection_established")),
        ("data", .obj [("orderId", .str orderId), ("message", .str msg)])]

/-! ## Driver location update validation (driver.js) -/

/-- Outcome of `PUT /api/driver/location`, with the successful case carrying
the side effects it performs: the `driver_locations` upsert, the
`driver_location:{orderId}` cache write, and the list of handles the SSE
frame was written to. -/
inductive LocationOutcome
  | missingFields
  | invalidCoordinates
  | notAssigned
  | locationUpdated (dbWrite : Bool) (cacheWrite : Bool) (pushedTo : List Nat)
deriving DecidableEq, Repr

/-- The range check of `PUT /api/driver/location` (lines 35-41):
`latitude < -90 || latitude > 90 || longitude < -180 || longitude > 180`. -/
def coordsOutOfRange (lat lng : Int) : Bool :=
  lat < -90 || lat > 90 || lng < -180 || lng > 180

/-- JS falsiness of an optional numeric field: absent, or present and `0`. -/
def numFalsy : Option Int → Bool
  | none => true
  | some v => v = 0

/-- Shallow embedding of the `PUT /api/driver/location` handler
(`src/routes/driver.js` lines 19-117).  `orderId`, `latitude`, `longitude`
are the request-body fields (`none` = absent); `assigned` models the order
check `driver_id = $2 AND status IN ('picked_up','ready')` succeeding;
`reg` is the SSE registry.  The handler returns its outcome (with the side
effects of the success path) and the resulting registry. -/
def putDriverLocation (orderId latitude longitude : Option Int)
    (assigned : Bool) (reg : Registry) (oid : Nat) (failing : Nat → Bool) :
    LocationOutcome × Registry :=
  if numFalsy orderId || numFalsy latitude || numFalsy longitude then
    (.missingFields, reg)
  else
    match latitude, longitude with
    | some lat, some lng =>
      if coordsOutOfRange lat lng then (.invalidCoordinates, reg)
      else if !assigned then (.notAssigned, reg)
      else
        let (delivered, reg') := pushLocation reg oid failing
        (.locationUpdated true true delivered, reg')
    | _, _ => (.missingFields, reg)

/-! ## Helper lemmas -/

/-- Trimming never lengthens a message. -/
lemma chatTrim_length_le (s : List Char) : (chatTrim s).length ≤ s.length := by
  unfold chatTrim
  calc (((s.dropWhile isWs).reverse.dropWhile isWs).reverse).length
      = ((s.dropWhile isWs).reverse.dropWhile isWs).length :=
        List.length_reverse _
    _ ≤ (s.dropWhile isWs).reverse.length :=
        (List.dropWhile_sublist _).length_le
    _ = (s.dropWhile isWs).length := List.length_reverse _
    _ ≤ s.length := (List.dropWhile_sublist _).length_le

/-- Counting a pair in a constant-second-component map counts the first
component. -/
lemma count_map_pair (members : List Nat) (e : ChatEvent) (h : Nat) :
    (members.map (fun x => (x, e))).count (h, e) = members.count h := by
  induction members with
  | nil => simp
  | cons a t ih =>
    by_cases hha : h = a
    · subst hha; simp [List.count_cons, ih]
    · simp [List.count_cons, ih, hha]

/-- The room broadcast never contains an acknowledgment event. -/
lemma count_map_pair_sent (members : List Nat) (s : Nat) (msg : List Char) :
    (members.map (fun x => (x, ChatEvent.newMessage msg))).count
      (s, ChatEvent.messageSent) = 0 := by
  rw [List.count_eq_zero]
  intro hmem
  rcases List.mem_map.mp hmem with ⟨x, _, hx⟩
  simp at hx

/-- The push loop delivers to, and keeps, exactly the handles whose write
succeeded. -/
lemma pushHandles_eq_filter (handles : List Nat) (failing : Nat → Bool) :
    pushHandles handles failing =
      (handles.filter (fun h => !failing h),
       handles.filter (fun h => !failing h)) := by
  induction handles with
  | nil => rfl
  | cons a t ih =>
    simp only [pushHandles, ih, List.filter]
    cases failing a <;> simp

/-- Looking up a key just set finds the new value. -/
lemma regLookup_regSet_self (reg : Registry) (o : Nat) (hs : List Nat) :
    regLookup (regSet reg o hs) o = some hs := by
  induction reg with
  | nil => simp [regSet, regLookup]
  | cons p rest ih =>
    obtain ⟨k, w⟩ := p
    by_cases h : k = o <;> simp [regSet, regLookup, h, ih]

/-- A removed key is gone. -/
lemma regLookup_regRemove (reg : Registry) (o : Nat) :
    regLookup (regRemove reg o) o = none := by
  induction reg with
  | nil => rfl
  | cons p rest ih =>
    obtain ⟨k, w⟩ := p
    by_cases h : k = o <;> simp [regRemove, regLookup, h] <;>
      simpa [regRemove] using ih

/-- The whole poll loop responds no later than one poll interval past the
effective timeout (fuel-indexed induction on the remaining wait). -/
lemma pollLoopEnd_le (k T t : Nat) (hk : T - t ≤ k)
    (ht : t ≤ T + pollInterval) : pollLoopEnd T t ≤ T + pollInterval := by
  induction k generalizing t with
  | zero =>
    have hnt : ¬ t < T := by omega
    rw [pollLoopEnd]
    simp [hnt, ht]
  | succ n ih =>
    rw [pollLoopEnd]
    by_cases hc : t < T
    · simp only [hc, if_true]
      exact ih (t + pollInterval) (by simp [pollInterval]; omega)
        (by simp [pollInterval]; omega)
    · simp [hc, ht]

/-! ## Claim theorems -/

/-- Claim C1, counterexample: the order state machine of the spec is not
enforced by `PUT /api/orders/:orderId/status`.  A driver updating a
`confirmed` order directly to `delivered` succeeds (and the cache follows),
and a restaurant re-setting `preparing` on an already-`preparing` order
succeeds too, although `specValidTransition` rejects both. -/
theorem putOrderStatus_invalid_transition_accepted :
    specValidTransition .driver .confirmed .delivered = false ∧
    putOrderStatus .driver 1 ⟨.confirmed, 0, none⟩ (some .confirmed) .delivered
      = (.updated .delivered, ⟨.delivered, 0, some 1⟩, some .delivered) ∧
    specValidTransition .restaurant .preparing .preparing = false ∧
    putOrderStatus .restaurant 5 ⟨.preparing, 5, none⟩ (some .preparing)
        .preparing
      = (.updated .preparing, ⟨.preparing, 5, none⟩, some .preparing) ∧
    (socketUpdateOrderStatus true 5 ⟨.preparing, 5, none⟩ .preparing).1
      = .confirmedUpdate .preparing := by
  decide

/-- Claim C1, amended: the status-update handlers gate only on the caller's
role (restaurant: `preparing`/`ready`; driver: `picked_up`/`delivered`;
socket handler: `preparing`/`ready`/`cancelled`) and on ownership/assignment
of the order — the current status is never consulted, so any transition into
the role's allowed set is applied; every rejected request leaves the order
row and the cached status unchanged, and every applied update sets the
status to the requested value. -/
theorem putOrderStatus_role_gated_only (userType : UserType) (userId : Nat)
    (order : OrderRow) (cache : Option OrderStatus) (requested : OrderStatus) :
    ((putOrderStatus userType userId order cache requested).1
        = .updated requested ↔
      ((userType = .restaurant ∧ restaurantAllowed requested = true ∧
          order.restaurantUserId = userId) ∨
       (userType = .driver ∧ driverAllowed requested = true ∧
          (order.driverId = none ∨ order.driverId = some userId)))) ∧
    ((putOrderStatus userType userId order cache requested).1
        = .updated requested ∨
      ((putOrderStatus userType userId order cache requested).2.1 = order ∧
       (putOrderStatus userType userId order cache requested).2.2 = cache)) ∧
    ((putOrderStatus userType userId order cache requested).2.1.status
        = requested ∨
      (putOrderStatus userType userId order cache requested).2.1 = order) ∧
    ((socketUpdateOrderStatus true userId order requested).1
        = .confirmedUpdate requested ↔
      (socketAllowed requested = true ∧ order.restaurantUserId = userId)) := by
  cases userType <;>
    simp only [putOrderStatus, socketUpdateOrderStatus, Bool.not_true,
      Bool.false_eq_true, if_false, ite_not] <;>
    split_ifs <;> simp_all

/-- Claim C2: the announcement fan-out drops tier-targeted announcements.
A subscribed customer (socket rooms `announcements-customer` and
`announcements-all`) receives zero copies of an announcement with
`targetAudience='customers'`, because the Redis-subscriber callback
dispatches into the room `announcements-customers` (the plural channel name)
which no socket ever joins; a `targetAudience='all'` announcement reaches
every subscriber type exactly once, only through the `announcements-all`
room. -/
theorem announcement_delivery_room_mismatch :
    deliveryCount .customer .customers = 0 ∧
    targets .customers .customer = true ∧
    deliveryCount .customer .all = 1 ∧
    deliveryCount .restaurant .all = 1 ∧
    deliveryCount .driver .all = 1 ∧
    deliveryCount .support .all = 1 := by
  decide

/-- Claim C3, counterexample: in a 10-member chat room the `send-message`
broadcast `io.to(room)` includes the sender, so the sender does receive an
echo of its own message (one copy), besides the `message-sent`
acknowledgment. -/
theorem sendMessage_sender_echo :
    ((sendMessage true 0 [0, 1, 2, 3, 4, 5, 6, 7, 8, 9]
        (some ['h', 'i'])).2.count (0, .newMessage ['h', 'i'])) = 1 ∧
    ((sendMessage true 0 [0, 1, 2, 3, 4, 5, 6, 7, 8, 9]
        (some ['h', 'i'])).2.count (0, .messageSent)) = 1 := by
  decide

/-- Claim C6, counterexample: when the push loop's write fails on the last
remaining handle of an order, the handle is removed but the registry retains
the order's entry mapped to the empty set — the entry is not deleted. -/
theorem pushLocation_retains_empty_entry :
    regLookup (pushLocation [(1, [7])] 1 (fun _ => true)).2 1 = some [] ∧
    regLookup (heartbeatFailureCleanup [(1, [7])] 1 7) 1 = some [] := by
  decide

/-- Claim C7, counterexample: the streamed frames carry no top-level
`timestamp` field (the timestamp lives inside `data`), and the heartbeat
frame's `data` is not empty — it contains a timestamp. -/
theorem sseFrame_no_toplevel_timestamp :
    Json.field (heartbeatFrame ("t0")) "timestamp" = none ∧
    Json.field (heartbeatFrame ("t0")) "data"
      = some (.obj [("timestamp", .str ("t0"))]) ∧
    Json.field (locationUpdateFrame 10 20 ("t0") ("7")) "timestamp" = none := by
  refine ⟨rfl, rfl, rfl⟩

/-- Claim C7, amended: every frame written to a streaming consumer has
exactly the two top-level fields `type` (a string tag) and `data` (an
object); timestamps are nested inside `data`, and the heartbeat frame's
`data` is the single-field object `{ timestamp }`. -/
theorem sseFrame_shape (lat lng : Int) (ts orderId msg : String) :
    (locationUpdateFrame lat lng ts orderId).topFields = ["type", "data"] ∧
    Json.field (locationUpdateFrame lat lng ts orderId) "type"
      = some (.str ("location_update")) ∧
    (heartbeatFrame ts).topFields = ["type", "data"] ∧
    Json.field (heartbeatFrame ts) "type" = some (.str ("heartbeat")) ∧
    Json.field (heartbeatFrame ts) "data"
      = some (.obj [("timestamp", .str ts)]) ∧
    (connectionEstablishedFrame orderId msg).topFields = ["type", "data"] := by
  refine ⟨rfl, rfl, rfl, rfl, rfl, rfl⟩

/-- Claim C8: while the upload status is non-terminal, any change of the
stored progress whose absolute value is at least 5 — a decrease included —
satisfies the wake condition, and the loop responds immediately with the new
progress and `completed = false`. -/
theorem pollCheck_wakes_on_progress_jump (initial current : UploadSnap)
    (hterm : isTerminalUpload current.status = false)
    (hjump : (current.progress - initial.progress).natAbs ≥ 5) :
    pollCheck initial current = .respond false current.progress := by
  simp [pollCheck, hterm, hjump]

/-- Claim C8, witness: a backward jump from progress 30 to progress 25 while
`processing` wakes the poll immediately. -/
theorem pollCheck_wakes_on_progress_jump_witness :
    pollCheck ⟨.processing, 30⟩ ⟨.processing, 25⟩ = .respond false 25 :=
  pollCheck_wakes_on_progress_jump ⟨.processing, 30⟩ ⟨.processing, 25⟩
    (by decide) (by decide)

/-- Claim C9: a driver location update with latitude 0 (or longitude 0) is
rejected by the falsiness presence check with the missing-fields 400 error,
exactly as if the field were absent, and produces no database write, no
cache write and no streaming push (the registry is returned untouched) —
although 0 lies inside the accepted coordinate ranges. -/
theorem driverLocation_zero_rejected (orderId other : Option Int)
    (assigned : Bool) (reg : Registry) (oid : Nat) (failing : Nat → Bool) :
    putDriverLocation orderId (some 0) other assigned reg oid failing
      = (.missingFields, reg) ∧
    putDriverLocation orderId other (some 0) assigned reg oid failing
      = (.missingFields, reg) ∧
    coordsOutOfRange 0 0 = false := by
  refine ⟨?_, ?_, by decide⟩ <;> simp [putDriverLocation, numFalsy]

/-- Removing the unique failing handle shrinks the set by exactly one. -/
lemma length_filter_single_failure (handles : List Nat) (failing : Nat → Bool)
    (f : Nat) (hnd : handles.Nodup) (hf : f ∈ handles)
    (hfail : failing f = true)
    (hothers : ∀ h ∈ handles, h ≠ f → failing h = false) :
    (handles.filter (fun h => !failing h)).length + 1 = handles.length := by
  induction handles with
  | nil => cases hf
  | cons a t ih =>
    have hnd' := List.nodup_cons.mp hnd
    by_cases haf : a = f
    · subst haf
      have ht : t.filter (fun h => !failing h) = t := by
        apply List.filter_eq_self.mpr
        intro x hx
        have hxa : x ≠ a := fun he => hnd'.1 (he ▸ hx)
        simp [hothers x (List.mem_cons_of_mem _ hx) hxa]
      simp [List.filter_cons, hfail, ht]
    · have hfa : failing a = false :=
        hothers a (List.mem_cons_self _ _) haf
      have hft : f ∈ t := by
        rcases List.mem_cons.mp hf with h | h
        · exact absurd h.symm haf
        · exact h
      have := ih hnd'.2 hft
        (fun h hh hne => hothers h (List.mem_cons_of_mem _ hh) hne)
      simp only [List.filter_cons, hfa]
      simp only [Bool.not_false, if_true]
      simpa [Nat.succ_eq_add_one] using congrArg Nat.succ this

/-- Claim C3, amended: a valid `send-message` in a room is broadcast with
`io.to(room)`, which includes the sender: every one of the room's members —
the sender among them — receives the stored (trimmed) message payload
exactly once, and the sender additionally receives exactly one
`message-sent` acknowledgment. -/
theorem sendMessage_broadcast_includes_sender (sender : Nat)
    (members : List Nat) (m : List Char) (hnd : members.Nodup)
    (_hmem : sender ∈ members) (hme : m.isEmpty = false)
    (hne : (chatTrim m).isEmpty = false) (hlen : m.length ≤ 1000) :
    (sendMessage true sender members (some m)).1 = .stored (chatTrim m) ∧
    (∀ h ∈ members, (sendMessage true sender members (some m)).2.count
        (h, .newMessage (chatTrim m)) = 1) ∧
    (sendMessage true sender members (some m)).2.count
      (sender, .messageSent) = 1 := by
  have h1000 : ¬ (m.length > 1000) := by omega
  have hrun : sendMessage true sender members (some m)
      = (.stored (chatTrim m),
         members.map (fun h => (h, .newMessage (chatTrim m)))
           ++ [(sender, .messageSent)]) := by
    simp [sendMessage, hne, hme, h1000]
  refine ⟨by rw [hrun], ?_, ?_⟩
  · intro h hh
    rw [hrun]
    simp [List.count_append, count_map_pair, List.count_cons,
      List.count_eq_one_of_mem hnd hh]
  · rw [hrun]
    simp [List.count_append, count_map_pair_sent, List.count_cons]

/-- Claim C3, amended, witness: a concrete run in a 10-member room with
sender 0 — the message is stored trimmed, every member (sender included)
receives it exactly once, and the sender gets one acknowledgment. -/
theorem sendMessage_broadcast_includes_sender_witness :
    (sendMessage true 0 [0, 1, 2, 3, 4, 5, 6, 7, 8, 9]
        (some ['h', 'e', 'y'])).1 = .stored (chatTrim ['h', 'e', 'y']) ∧
    (∀ h ∈ [0, 1, 2, 3, 4, 5, 6, 7, 8, 9],
      (sendMessage true 0 [0, 1, 2, 3, 4, 5, 6, 7, 8, 9]
          (some ['h', 'e', 'y'])).2.count
        (h, .newMessage (chatTrim ['h', 'e', 'y'])) = 1) ∧
    (sendMessage true 0 [0, 1, 2, 3, 4, 5, 6, 7, 8, 9]
        (some ['h', 'e', 'y'])).2.count (0, .messageSent) = 1 :=
  sendMessage_broadcast_includes_sender 0 [0, 1, 2, 3, 4, 5, 6, 7, 8, 9]
    ['h', 'e', 'y'] (by decide) (by decide) (by decide) (by decide) (by decide)

/-- Claim C4: the long poll is bounded — the caller-requested timeout is
capped at the hard maximum of 60000 ms, and when no material change ever
occurs the endpoint responds within the effective timeout plus one poll
interval (1000 ms); for a requested timeout of 5000 ms it responds at
5000 ms ≤ 5100 ms. -/
theorem longPoll_timeout_bound (requested : Nat) :
    effectiveTimeout requested ≤ maxTimeout ∧
    noChangeReturnTime requested ≤ effectiveTimeout requested + pollInterval ∧
    noChangeReturnTime requested ≤ requested + pollInterval ∧
    noChangeReturnTime 5000 ≤ 5100 := by
  have hcap : effectiveTimeout requested ≤ maxTimeout := Nat.min_le_right _ _
  have hreq : effectiveTimeout requested ≤ requested := Nat.min_le_left _ _
  have hbound : noChangeReturnTime requested
      ≤ effectiveTimeout requested + pollInterval :=
    pollLoopEnd_le (effectiveTimeout requested) (effectiveTimeout requested) 0
      (by omega) (by omega)
  refine ⟨hcap, hbound, by omega, ?_⟩
  have e0 : effectiveTimeout 5000 = 5000 := rfl
  have step : ∀ t : Nat, t < 5000 →
      pollLoopEnd 5000 t = pollLoopEnd 5000 (t + 1000) := by
    intro t ht
    rw [pollLoopEnd]
    simp [pollInterval, ht]
  have estop : pollLoopEnd 5000 5000 = 5000 := by
    rw [pollLoopEnd]
    simp
  have : noChangeReturnTime 5000 = 5000 := by
    rw [noChangeReturnTime, e0, step 0 (by omega), step 1000 (by omega),
      step 2000 (by omega), step 3000 (by omega), step 4000 (by omega),
      estop]
  omega

/-- Claim C5: a streaming push to an order with several registered handles,
exactly one of which fails to write, still delivers the frame to every
other handle, removes the failed one, and shrinks the registered set for
that order by exactly one. -/
theorem pushLocation_partial_failure (reg : Registry) (o : Nat)
    (handles : List Nat) (failing : Nat → Bool) (f : Nat)
    (hlook : regLookup reg o = some handles) (hnd : handles.Nodup)
    (hf : f ∈ handles) (hfail : failing f = true)
    (hothers : ∀ h ∈ handles, h ≠ f → failing h = false) :
    (∀ h ∈ handles, h ≠ f → h ∈ (pushLocation reg o failing).1) ∧
    regLookup (pushLocation reg o failing).2 o
      = some (handles.filter (fun h => !failing h)) ∧
    (handles.filter (fun h => !failing h)).length + 1 = handles.length ∧
    f ∉ handles.filter (fun h => !failing h) := by
  have hne : handles.isEmpty = false := by
    rcases handles with _ | ⟨a, t⟩
    · cases hf
    · rfl
  have hrun : pushLocation reg o failing
      = (handles.filter (fun h => !failing h),
         regSet reg o (handles.filter (fun h => !failing h))) := by
    simp [pushLocation, hlook, hne, pushHandles_eq_filter]
  refine ⟨?_, ?_, ?_, ?_⟩
  · intro h hh hhf
    rw [hrun]
    exact List.mem_filter.mpr ⟨hh, by simp [hothers h hh hhf]⟩
  · rw [hrun]
    exact regLookup_regSet_self reg o _
  · exact length_filter_single_failure handles failing f hnd hf hfail hothers
  · simp [List.mem_filter, hfail]

/-- Claim C5, witness: three registered handles of which handle 2 fails —
handles 1 and 3 still receive the frame, and the set shrinks from 3 to 2. -/
theorem pushLocation_partial_failure_witness :
    (∀ h ∈ [1, 2, 3], h ≠ 2 →
      h ∈ (pushLocation [(1, [1, 2, 3])] 1 (fun h => h == 2)).1) ∧
    regLookup (pushLocation [(1, [1, 2, 3])] 1 (fun h => h == 2)).2 1
      = some ([1, 2, 3].filter (fun h => !(h == 2))) ∧
    ([1, 2, 3].filter (fun h => !(h == 2))).length + 1 = [1, 2, 3].length ∧
    (2 : Nat) ∉ [1, 2, 3].filter (fun h => !(h == 2)) :=
  pushLocation_partial_failure [(1, [1, 2, 3])] 1 [1, 2, 3]
    (fun h => h == 2) 2 (by decide) (by decide) (by decide) (by decide)
    (by decide)

/-- Claim C6, amended: only the client-disconnect close handler deletes the
resourceId entry when the last handle is removed; the push-failure and
heartbeat-failure removal paths delete the handle but leave the (possibly
empty) entry in the registry map. -/
theorem registry_empty_entry_cleanup (reg : Registry) (o h : Nat)
    (hs : List Nat) (failing : Nat → Bool) :
    (regLookup reg o = some hs → hs.filter (fun x => x ≠ h) = [] →
      regLookup (closeConnection reg o h) o = none) ∧
    (regLookup reg o = some hs → hs ≠ [] →
      regLookup (pushLocation reg o failing).2 o
        = some (hs.filter (fun x => !failing x))) ∧
    (regLookup reg o = some hs →
      regLookup (heartbeatFailureCleanup reg o h) o
        = some (hs.filter (fun x => x ≠ h))) := by
  refine ⟨?_, ?_, ?_⟩
  · intro hl hfe
    simp only [closeConnection, hl, hfe, List.isEmpty_nil, if_true]
    exact regLookup_regRemove reg o
  · intro hl hne
    have hie : hs.isEmpty = false := by
      rcases hs with _ | ⟨a, t⟩
      · exact absurd rfl hne
      · rfl
    simp only [pushLocation, hl, hie, Bool.false_eq_true, if_false,
      pushHandles_eq_filter]
    exact regLookup_regSet_self reg o _
  · intro hl
    simp only [heartbeatFailureCleanup, hl]
    exact regLookup_regSet_self reg o _

/-- Claim C6, amended, witness: closing the last handle deletes the entry;
a push failure and a heartbeat failure on the last handle leave an entry
mapped to the empty set. -/
theorem registry_empty_entry_cleanup_witness :
    regLookup (closeConnection [(4, [7])] 4 7) 4 = none ∧
    regLookup (pushLocation [(4, [7])] 4 (fun _ => true)).2 4 = some [] ∧
    regLookup (heartbeatFailureCleanup [(4, [7])] 4 7) 4 = some [] := by
  have h := registry_empty_entry_cleanup [(4, [7])] 4 7 [7] (fun _ => true)
  refine ⟨h.1 rfl (by decide), ?_, ?_⟩
  · have := h.2.1 rfl (by decide)
    simpa using this
  · have := h.2.2 rfl
    simpa using this

/-- Claim C10: a stored chat message is always the trimmed input with length
between 1 and 1000; an input that is empty or whitespace-only after
trimming, or longer than 1000 characters, is rejected with an error event
to the sender only, and nothing is stored or broadcast. -/
theorem sendMessage_trims_and_bounds (sender : Nat) (members : List Nat)
    (mc : List Char) :
    ((chatTrim mc).isEmpty = false → mc.length ≤ 1000 →
      (sendMessage true sender members (some mc)).1 = .stored (chatTrim mc) ∧
      1 ≤ (chatTrim mc).length ∧ (chatTrim mc).length ≤ 1000) ∧
    ((chatTrim mc).isEmpty = true ∨ 1000 < mc.length →
      ((sendMessage true sender members (some mc)).1 = .emptyMessage ∨
        (sendMessage true sender members (some mc)).1 = .tooLong) ∧
      (sendMessage true sender members (some mc)).2
        = [(sender, .errorReply)]) := by
  constructor
  · intro hne hlen
    have hmne : mc.isEmpty = false := by
      rcases mc with _ | ⟨a, t⟩
      · exact absurd hne (by decide)
      · rfl
    have h1000 : ¬ (mc.length > 1000) := by omega
    refine ⟨by simp [sendMessage, hne, hmne, h1000], ?_, ?_⟩
    · have hnn : chatTrim mc ≠ [] := by
        intro he
        rw [he] at hne
        simp at hne
      have := List.length_pos.mpr hnn
      omega
    · exact le_trans (chatTrim_length_le mc) hlen
  · intro hbad
    by_cases hmne : mc.isEmpty = true
    · have : mc = [] := List.isEmpty_iff.mp hmne
      subst this
      exact ⟨Or.inl (by simp [sendMessage]), by simp [sendMessage]⟩
    · have hmne' : mc.isEmpty = false := by
        rcases h : mc.isEmpty with _ | _
        · rfl
        · exact absurd h hmne
      by_cases hte : (chatTrim mc).isEmpty = true
      · exact ⟨Or.inl (by simp [sendMessage, hmne', hte]),
          by simp [sendMessage, hmne', hte]⟩
      · have hte' : (chatTrim mc).isEmpty = false := by
          rcases h : (chatTrim mc).isEmpty with _ | _
          · rfl
          · exact absurd h hte
        have hlong : 1000 < mc.length := by
          rcases hbad with h | h
          · exact absurd h hte
          · exact h
        exact ⟨Or.inr (by simp [sendMessage, hmne', hte', hlong]),
          by simp [sendMessage, hmne', hte', hlong]⟩

/-- Claim C10, witness: an input with surrounding blanks is stored as its trimmed single
character; a whitespace-only input is rejected with a single error event to
the sender. -/
theorem sendMessage_trims_and_bounds_witness :
    ((sendMessage true 3 [3, 4] (some [' ', 'a', ' '])).1
        = .stored (chatTrim [' ', 'a', ' ']) ∧
      1 ≤ (chatTrim [' ', 'a', ' ']).length ∧
      (chatTrim [' ', 'a', ' ']).length ≤ 1000) ∧
    (((sendMessage true 3 [3, 4] (some [' '])).1 = .emptyMessage ∨
        (sendMessage true 3 [3, 4] (some [' '])).1 = .tooLong) ∧
      (sendMessage true 3 [3, 4] (some [' '])).2 = [(3, .errorReply)]) :=
  ⟨(sendMessage_trims_and_bounds 3 [3, 4] [' ', 'a', ' ']).1
      (by decide) (by decide),
   (sendMessage_trims_and_bounds 3 [3, 4] [' ']).2 (Or.inl (by decide))⟩

end FoodFast
